import Mathlib

/-!
Verification development for the BLE mesh gateway (`gateway-pi5/gateway-code`):
a shallow embedding of the notification parser (`dc_gateway.py`) and of the
power manager (`power_manager.py`, `node_state.py`, `constants.py`), with
theorems settling the specification claims about them.

Conventions of the embedding:
* Python floats are modelled as exact rationals (`ℚ`); Python ints as `ℤ`
  (or `ℕ` where the source guarantees non-negativity, e.g. regex digits).
* Python dicts keyed by node id are insertion-ordered association lists
  `List (String × NodeState)`, mirroring dict iteration order.
* Stateful methods become pure state transformers; I/O performed by a method
  (sleeps, GATT writes, response waits) is returned as a `GatewayAction` trace.
* Wall-clock reads (`time.monotonic()`) become explicit `now : ℚ` parameters.
* `await gateway._wait_node_response(nid)` is modelled by a confirmation
  oracle `confirm : String → Bool` (`true` = the node answered in time).
-/

namespace BLEMesh

/-- Model of `node_state.NodeState` (dataclass, `node_state.py`).
`last_seen`'s dataclass default is `time.monotonic()` at creation, so node
construction takes the creation time explicitly. -/
structure NodeState where
  node_id : String
  duty : ℤ := 0
  target_duty : ℤ := 0
  commanded_duty : ℤ := 0
  voltage : ℚ := 0
  current : ℚ := 0
  power : ℚ := 0
  last_seen : ℚ := 0
  responsive : Bool := true
  poll_gen : ℕ := 0
deriving Repr, DecidableEq

/-- Fresh `NodeState(node_id=nid)` created at time `now`. -/
def NodeState.mkNew (nid : String) (now : ℚ) : NodeState :=
  { node_id := nid, last_seen := now }

/-! ## Notification parser (`dc_gateway.notification_handler`, `constants.py`)

The parser works on decoded text; we represent it as `List Char` so that all
operations reduce in the kernel.  `data.decode('utf-8', errors='replace')`
is modelled by taking the already-decoded character list as input. -/

/-- Python `str.strip()` on the ASCII whitespace the gateway encounters. -/
def trimChars (s : List Char) : List Char :=
  ((s.dropWhile Char.isWhitespace).reverse.dropWhile Char.isWhitespace).reverse

/-- Does the decoded frame begin with the `'+'` continuation marker? -/
def startsWithPlus : List Char → Bool
  | '+' :: _ => true
  | _ => false

/-- Chunk reassembly step of `notification_handler` (dc_gateway.py:140-150).
Input: current `_chunk_buf` and one raw frame.  Output: the new buffer and
the completed logical message, if this frame terminated one. -/
def processFrameChars (buf frame : List Char) : List Char × Option (List Char) :=
  let decoded := trimChars frame
  if startsWithPlus decoded then (buf ++ decoded.tail, none)
  else ([], some (buf ++ decoded))

/-- Return the text before and after the first occurrence of `pat`, or `none`
when `pat` does not occur (Python `s.split(pat, 1)` / `pat in s`). -/
def splitFirst (pat : List Char) : List Char → Option (List Char × List Char)
  | [] => if pat.isEmpty then some ([], []) else none
  | c :: cs =>
    if pat.isPrefixOf (c :: cs) then some ([], (c :: cs).drop pat.length)
    else (splitFirst pat cs).map (fun q => (c :: q.1, q.2))

/-- Consume `lit` case-insensitively from the head of `s`
(the source regexes carry `re.IGNORECASE`). -/
def matchCI (lit : List Char) (s : List Char) : Option (List Char) :=
  match lit, s with
  | [], rest => some rest
  | _ :: _, [] => none
  | l :: ls, c :: cs => if l.toLower = c.toLower then matchCI ls cs else none

/-- Character class `[\d.]` of `SENSOR_RE`. -/
def isDigitDot (c : Char) : Bool := c.isDigit || c == '.'

/-- Greedy `(\d+)` group: maximal run of digits plus the remaining input. -/
def takeDigits (s : List Char) : List Char × List Char :=
  (s.takeWhile Char.isDigit, s.dropWhile Char.isDigit)

/-- Greedy `([\d.]+)` group: maximal run of `[\d.]` plus the remaining input. -/
def takeDigitDots (s : List Char) : List Char × List Char :=
  (s.takeWhile isDigitDot, s.dropWhile isDigitDot)

/-- Model of `SENSOR_RE.match` (constants.py:17) applied to a payload:
`D:(\d+)%,V:([\d.]+)V,I:([\d.]+)mA,P:([\d.]+)mW`, case-insensitive, anchored
at the start with trailing text allowed.  Every greedy group is followed by a
literal outside its character class, so maximal munch coincides with the
regex's backtracking semantics.  Returns the four captured groups. -/
def sensorMatch (payload : List Char) : Option (List Char × List Char × List Char × List Char) := do
  let s ← matchCI "D:".toList payload
  let (g1, s) := takeDigits s
  if g1.isEmpty then none else
  let s ← matchCI "%,V:".toList s
  let (g2, s) := takeDigitDots s
  if g2.isEmpty then none else
  let s ← matchCI "V,I:".toList s
  let (g3, s) := takeDigitDots s
  if g3.isEmpty then none else
  let s ← matchCI "mA,P:".toList s
  let (g4, s) := takeDigitDots s
  if g4.isEmpty then none else
  let _ ← matchCI "mW".toList s
  some (g1, g2, g3, g4)

/-- Model of `NODE_ID_RE.match` (constants.py:18): `NODE(\d+)`,
case-insensitive, anchored at the start, trailing text allowed. -/
def nodeIdMatch (tag : List Char) : Option (List Char) := do
  let s ← matchCI "NODE".toList tag
  let (g, _) := takeDigits s
  if g.isEmpty then none else some g

/-- Python `int()` on a nonempty digit string. -/
def natOfDigits (ds : List Char) : ℕ :=
  ds.foldl (fun a c => a * 10 + (c.toNat - 48)) 0

/-- Python `float()` on a `[\d.]+` string, as an exact rational.
`float` fails (ValueError) on more than one dot or on a bare `"."`;
those cases return `none`. -/
def ratOfDigitDots (ds : List Char) : Option ℚ :=
  match splitFirst ['.'] ds with
  | none => if ds.isEmpty then none else some (natOfDigits ds)
  | some (ip, fp) =>
    if fp.contains '.' then none
    else if ip.isEmpty && fp.isEmpty then none
    else some ((natOfDigits ip : ℚ) + (natOfDigits fp : ℚ) / (10 ^ fp.length : ℚ))

/-- Typed events emitted by `notification_handler` after classifying a
logical message (dc_gateway.py:152-248).  `sensorReading` corresponds to the
successful `SENSOR_RE`/`NODE_ID_RE` parse that feeds the power manager;
`rawData` is the tag-preserving fallthrough log of an unparseable `:DATA:`
payload; the rest mirror the prefix dispatch. -/
inductive GwEvent where
  | sensorReading (node_id : String) (duty : ℤ) (v i p : ℚ)
  | rawData (tag payload : String)
  | errorEvt (msg : String)
  | sentEvt (msg : String)
  | meshReady (msg : String)
  | timeoutEvt (msg : String)
  | rawLine (msg : String)
deriving Repr, DecidableEq

/-- Classification of one completed logical message
(dc_gateway.py:154-248, side effects abstracted into the returned event).
The source calls `float()` only on strings already matched by `[\d.]+`; the
(unreachable for well-formed telemetry) case where `float` would raise is
folded into the `rawData` fallthrough. -/
def classify (msg : List Char) : GwEvent :=
  match splitFirst ":DATA:".toList msg with
  | some (tag, payload) =>
    match sensorMatch payload, nodeIdMatch tag with
    | some (g1, g2, g3, g4), some gid =>
      match ratOfDigitDots g2, ratOfDigitDots g3, ratOfDigitDots g4 with
      | some v, some i, some p =>
        GwEvent.sensorReading (String.mk gid) (natOfDigits g1 : ℤ) v i p
      | _, _, _ => GwEvent.rawData (String.mk tag) (String.mk payload)
    | _, _ => GwEvent.rawData (String.mk tag) (String.mk payload)
  | none =>
    if "ERROR:".toList.isPrefixOf msg then GwEvent.errorEvt (String.mk msg)
    else if "SENT:".toList.isPrefixOf msg then GwEvent.sentEvt (String.mk msg)
    else if "MESH_READY".toList.isPrefixOf msg then GwEvent.meshReady (String.mk msg)
    else if "TIMEOUT:".toList.isPrefixOf msg then GwEvent.timeoutEvt (String.mk msg)
    else GwEvent.rawLine (String.mk msg)

/-- One notification callback: reassemble, then classify if a message
completed. -/
def handleFrame (buf frame : List Char) : List Char × List GwEvent :=
  match processFrameChars buf frame with
  | (b, none) => (b, [])
  | (b, some msg) => (b, [classify msg])

/-- Feed a sequence of raw frames through the handler, starting from an
empty `_chunk_buf`; collect all emitted events in order. -/
def runFrames (frames : List (List Char)) : List Char × List GwEvent :=
  frames.foldl
    (fun acc f =>
      let r := handleFrame acc.1 f
      (r.1, acc.2 ++ r.2))
    ([], [])

/-- Is an event a `SensorReading`? -/
def isSensorEvent : GwEvent → Bool
  | GwEvent.sensorReading _ _ _ _ _ => true
  | _ => false

/-! ## Power manager (`power_manager.PowerManager`)

Tunables from power_manager.py:34-39. -/

def COOLDOWN : ℚ := 5
def STALE_TIMEOUT : ℚ := 45
def HEADROOM_MW : ℚ := 500
def PRIORITY_WEIGHT : ℚ := 2

/-- Model of the `PowerManager` mutable state (power_manager.py:41-51).
The `gateway` back-reference carries only I/O, which the transformers
below return as explicit action traces. -/
structure PowerManager where
  nodes : List (String × NodeState) := []
  threshold_mw : Option ℚ := none
  priority_node : Option String := none
  adjusting : Bool := false
  last_adjustment : ℚ := 0
  force_evaluate : Bool := false
  poll_generation : ℕ := 0
  polling : Bool := false
  needs_bootstrap : Bool := false
deriving Repr, DecidableEq

/-- I/O the power manager performs through the gateway, as trace entries:
`asyncio.sleep`, a GATT wire command, and `_wait_node_response`. -/
inductive GatewayAction where
  | sleep (secs : ℚ)
  | sendCmd (cmd : String)
  | waitResp (nid : String)
deriving Repr, DecidableEq

/-- Just the wire commands of a trace. -/
def wireSends (acts : List GatewayAction) : List String :=
  acts.filterMap fun a =>
    match a with
    | GatewayAction.sendCmd c => some c
    | _ => none

/-- Python `self.nodes.get(nid)` / `nid in self.nodes`. -/
def lookupNode (nodes : List (String × NodeState)) (nid : String) : Option NodeState :=
  (nodes.find? (fun p => p.1 = nid)).map Prod.snd

/-- Mutate the entry for `nid` in place (Python mutates the `NodeState`
object held by the dict, keeping insertion order). -/
def updateNode (nodes : List (String × NodeState)) (nid : String)
    (f : NodeState → NodeState) : List (String × NodeState) :=
  nodes.map fun p => if p.1 = nid then (p.1, f p.2) else p

/-- Wire form of `gateway.set_duty(node, percent)` (dc_gateway.py:395-412):
clamp to [0,100] and send `<node>:DUTY:<percent>`.  Calls from the power
manager pass `_from_power_mgr=True`, so the operator-target bookkeeping
branch is skipped and only the send remains. -/
def dutyWire (nid : String) (percent : ℤ) : String :=
  nid ++ ":DUTY:" ++ toString (max 0 (min 100 percent))

/-- Model of `set_threshold` (power_manager.py:55-81); logging dropped. -/
def setThreshold (pm : PowerManager) (mw : ℚ) : PowerManager :=
  let first_enable := pm.threshold_mw.isNone
  let needs_bootstrap := pm.nodes.isEmpty
  let nodes :=
    if first_enable then
      pm.nodes.map fun p =>
        if p.2.duty > 0 then (p.1, { p.2 with target_duty := p.2.duty }) else p
    else pm.nodes
  { pm with threshold_mw := some mw, needs_bootstrap := needs_bootstrap,
            nodes := nodes, force_evaluate := true, adjusting := false }

/-- Model of `set_priority` (power_manager.py:100-115); logging dropped. -/
def setPriority (pm : PowerManager) (node_id : String) : PowerManager :=
  { pm with priority_node := some node_id, force_evaluate := true }

/-- Model of `clear_priority` (power_manager.py:117-127); logging dropped. -/
def clearPriority (pm : PowerManager) : PowerManager :=
  { pm with priority_node := none, force_evaluate := true }

/-- Model of `set_target_duty` (power_manager.py:129-136).  A missing node
is created first (`NodeState(node_id=node_id)`, whose `last_seen` dataclass
default reads the clock, hence the `now` parameter); then both `target_duty`
and `commanded_duty` are set. -/
def setTargetDuty (pm : PowerManager) (node_id : String) (duty : ℤ) (now : ℚ) :
    PowerManager :=
  let nodes0 :=
    if (lookupNode pm.nodes node_id).isNone then
      pm.nodes ++ [(node_id, NodeState.mkNew node_id now)]
    else pm.nodes
  let upd := fun ns => { ns with target_duty := duty, commanded_duty := duty }
  { pm with nodes := updateNode nodes0 node_id upd }

/-- Model of `on_sensor_data` (power_manager.py:196-215).  Creates the node
on first contact, refreshes telemetry, and syncs `commanded_duty` from the
sensor only while the power manager is off. -/
def onSensorData (pm : PowerManager) (node_id : String) (duty : ℤ)
    (voltage current power : ℚ) (now : ℚ) : PowerManager :=
  let nodes0 :=
    if (lookupNode pm.nodes node_id).isNone then
      pm.nodes ++ [(node_id, NodeState.mkNew node_id now)]
    else pm.nodes
  { pm with nodes := updateNode nodes0 node_id fun ns =>
      let ns := { ns with duty := duty, voltage := voltage, current := current,
                          power := power, last_seen := now, responsive := true,
                          poll_gen := pm.poll_generation }
      if pm.threshold_mw.isNone then { ns with commanded_duty := duty } else ns }

/-- Python `str.isdigit()` for the ASCII node ids used on this wire. -/
def isDigitStr (s : String) : Bool := !s.isEmpty && s.toList.all Char.isDigit

/-- Model of `_mark_stale_nodes` (power_manager.py:321-332): non-numeric ids
are skipped, nodes silent longer than `STALE_TIMEOUT` become unresponsive. -/
def markStaleNodes (pm : PowerManager) (now : ℚ) : PowerManager :=
  { pm with nodes := pm.nodes.map fun p =>
      if isDigitStr p.2.node_id ∧ now - p.2.last_seen > STALE_TIMEOUT then
        (p.1, { p.2 with responsive := false })
      else p }

/-- The restore loop of `disable` (power_manager.py:90-97): per node, when
`commanded_duty ≠ target_duty` and `target_duty > 0`, a `set_duty` to the
target plus a best-effort response wait; then `commanded_duty = 0`
unconditionally. -/
def restoreNodes : List (String × NodeState) →
    List (String × NodeState) × List GatewayAction
  | [] => ([], [])
  | (nid, ns) :: rest =>
    let acts :=
      if ns.commanded_duty ≠ ns.target_duty ∧ ns.target_duty > 0 then
        [GatewayAction.sendCmd (dutyWire nid ns.target_duty), GatewayAction.waitResp nid]
      else []
    let r := restoreNodes rest
    ((nid, { ns with commanded_duty := 0 }) :: r.1, acts ++ r.2)

/-- Model of `disable` (power_manager.py:83-98): clear the threshold and the
polling flag, drain in-flight commands for 2 s, then restore and reset. -/
def disable (pm : PowerManager) : PowerManager × List GatewayAction :=
  let r := restoreNodes pm.nodes
  ({ pm with threshold_mw := none, polling := false, nodes := r.1 },
   GatewayAction.sleep 2 :: r.2)

/-- The fallback `estimates` list of `_estimate_mw_per_pct`
(power_manager.py:450-455): one `power / duty` ratio per node that has data. -/
def mwEstimates (all_nodes : List (String × NodeState)) : List ℚ :=
  all_nodes.filterMap fun p =>
    let d := if p.2.commanded_duty > 0 then p.2.commanded_duty else p.2.duty
    if 0 < d ∧ 0 < p.2.power then some (p.2.power / (d : ℚ)) else none

/-- Model of `_estimate_mw_per_pct` (power_manager.py:441-458). -/
def estimateMwPerPct (ns : NodeState) (all_nodes : List (String × NodeState)) : ℚ :=
  let duty_value := if ns.commanded_duty > 0 then ns.commanded_duty else ns.duty
  if 0 < duty_value ∧ 0 < ns.power then ns.power / (duty_value : ℚ)
  else if (mwEstimates all_nodes).isEmpty then 50
  else (mwEstimates all_nodes).sum / ((mwEstimates all_nodes).length : ℚ)

/-- Python 3 `round()` on an exact rational: round half to even. -/
def pyRound (q : ℚ) : ℤ :=
  let f := ⌊q⌋
  let r := q - f
  if r < 1/2 then f
  else if 1/2 < r then f + 1
  else if f % 2 = 0 then f else f + 1

/-- Rounded clamped ideal duty of `_nudge_node` (power_manager.py:468-476):
`round(max(0, min(ceiling, share / mw_per_pct)))` with the ceiling being
`target_duty` when positive, else 100. -/
def nudgeNewDuty (ns : NodeState) (target_share_mw : ℚ)
    (all_nodes : List (String × NodeState)) : ℤ :=
  let mw_per_pct := estimateMwPerPct ns all_nodes
  let ideal_duty := target_share_mw / mw_per_pct
  let ceiling : ℤ := if ns.target_duty > 0 then ns.target_duty else 100
  pyRound (max 0 (min (ceiling : ℚ) ideal_duty))

/-- The `current` reference duty of `_nudge_node` (power_manager.py:475):
`commanded_duty` when positive, else the sensor duty. -/
def nudgeCurrent (ns : NodeState) : ℤ :=
  if ns.commanded_duty > 0 then ns.commanded_duty else ns.duty

/-- Model of `_nudge_node` (power_manager.py:460-502).  `confirmed` is the
outcome of `gateway._wait_node_response(nid)`.  Returns the change string
(`None` when no command was needed), the node's new state, and the I/O
trace.  On an unconfirmed send, `commanded_duty` is deliberately left
untouched (power_manager.py:496-501). -/
def nudgeNode (nid : String) (ns : NodeState) (target_share_mw : ℚ)
    (all_nodes : List (String × NodeState)) (confirmed : Bool) :
    Option String × NodeState × List GatewayAction :=
  let current := nudgeCurrent ns
  let new_duty := nudgeNewDuty ns target_share_mw all_nodes
  if new_duty = current then (none, ns, [])
  else
    let new_duty := max 0 (min 100 new_duty)
    if new_duty = current then (none, ns, [])
    else
      let change := "N" ++ nid ++ ":" ++ toString current ++ "->" ++ toString new_duty ++ "%"
      let acts := [GatewayAction.sendCmd (dutyWire nid new_duty), GatewayAction.waitResp nid]
      if confirmed then (some change, { ns with commanded_duty := new_duty }, acts)
      else (some change, ns, acts)

/-- Sort key of the balancer loops (power_manager.py:510, 552):
`int(nid)` for all-digit ids, `999` otherwise. -/
def nodeSortKey (s : String) : ℤ := ((s.toNat?).map Int.ofNat).getD 999

/-- Stable insertion into a key-sorted list (models Python's stable `sorted`). -/
def insertByKey (x : String × NodeState) :
    List (String × NodeState) → List (String × NodeState)
  | [] => [x]
  | y :: ys =>
    if nodeSortKey y.1 < nodeSortKey x.1 then y :: insertByKey x ys
    else x :: y :: ys

/-- Stable sort by `nodeSortKey` (Python `sorted(nodes.items(), key=...)`). -/
def sortNodes (l : List (String × NodeState)) : List (String × NodeState) :=
  l.foldr insertByKey []

/-- One balancer pass: nudge each listed node id in order with a fixed
share, threading the node map (Python mutates the shared `NodeState`
objects, so later `_estimate_mw_per_pct` calls see earlier updates). -/
def nudgeRound (share : ℚ) (confirm : String → Bool) :
    List String → List (String × NodeState) × List GatewayAction →
    List (String × NodeState) × List GatewayAction
  | [], acc => acc
  | nid :: rest, acc =>
    match lookupNode acc.1 nid with
    | none => nudgeRound share confirm rest acc
    | some ns =>
      let r := nudgeNode nid ns share acc.1 (confirm nid)
      nudgeRound share confirm rest (updateNode acc.1 nid (fun _ => r.2.1), acc.2 ++ r.2.2)

/-- Model of `_balance_proportional` (power_manager.py:504-519):
equal shares `budget / n` over the given (responsive) map, nudging in
sorted order. -/
def balanceProportional (nodes : List (String × NodeState)) (budget : ℚ)
    (confirm : String → Bool) : List (String × NodeState) × List GatewayAction :=
  let share_mw := budget / (nodes.length : ℚ)
  nudgeRound share_mw confirm ((sortNodes nodes).map Prod.fst) (nodes, [])

/-- Maximum power the priority node may draw, `pri_ceiling * pri_mw_per_pct`
(power_manager.py:532-534): its `target_duty` ceiling (100 when unset) times
its estimated mw-per-percent. -/
def priMaxPower (pri : String) (nodes : List (String × NodeState)) : ℚ :=
  let priority_ns := (lookupNode nodes pri).getD (NodeState.mkNew pri 0)
  let pri_ceiling : ℤ := if priority_ns.target_duty > 0 then priority_ns.target_duty else 100
  (pri_ceiling : ℚ) * estimateMwPerPct priority_ns nodes

/-- Share computation of `_balance_with_priority` (power_manager.py:523-542):
weighted tentative shares, then the ceiling-aware cap when the priority node
cannot absorb its share.  Returns `(priority_budget, non_pri_share)`. -/
def prioritySharesOf (pri : String) (nodes : List (String × NodeState))
    (budget : ℚ) : ℚ × ℚ :=
  let non_priority := nodes.filter fun p => p.1 ≠ pri
  let total_shares : ℚ := PRIORITY_WEIGHT + (non_priority.length : ℚ)
  let priority_budget := budget * (PRIORITY_WEIGHT / total_shares)
  let pri_max_power := priMaxPower pri nodes
  let priority_budget :=
    if pri_max_power < priority_budget ∧ ¬non_priority.isEmpty then pri_max_power
    else priority_budget
  let remaining := budget - priority_budget
  let non_pri_share :=
    if ¬non_priority.isEmpty then remaining / (non_priority.length : ℚ) else 0
  (priority_budget, non_pri_share)

/-- Model of `_balance_with_priority` (power_manager.py:521-562): nudge the
priority node with its (possibly capped) share, then the non-priority nodes
in sorted order with the redistributed share. -/
def balanceWithPriority (pri : String) (nodes : List (String × NodeState))
    (budget : ℚ) (confirm : String → Bool) :
    List (String × NodeState) × List GatewayAction :=
  let shares := prioritySharesOf pri nodes budget
  let step1 :=
    match lookupNode nodes pri with
    | none => (nodes, ([] : List GatewayAction))
    | some ns =>
      let r := nudgeNode pri ns shares.1 nodes (confirm pri)
      (updateNode nodes pri (fun _ => r.2.1), r.2.2)
  let non_pri_order := ((sortNodes (nodes.filter fun p => p.1 ≠ pri))).map Prod.fst
  nudgeRound shares.2 confirm non_pri_order step1

/-- How one call to `_evaluate_and_adjust` resolved, mirroring the skip
ladder of power_manager.py:334-424.  `proceed forced budget` means control
reached the balancer dispatch (power_manager.py:425-439). -/
inductive EvalOutcome where
  | skipThresholdOrAdjusting
  | skipCooldown
  | skipNoResponsive
  | skipBudget
  | skipDeadband
  | skipCeiling
  | proceed (forced : Bool) (budget : ℚ)
deriving Repr, DecidableEq

/-- Skip ladder and forced resynchronization of `_evaluate_and_adjust`
(power_manager.py:334-424), up to the balancer dispatch.  Note the source
clears `_force_evaluate` (line 352) right after the cooldown gate and
*before* the responsive-nodes and budget gates.  On a forced evaluation,
every responsive node with `duty > 0` gets `commanded_duty ← duty`
(lines 414-423). -/
def evalPhase (pm : PowerManager) (now : ℚ) : PowerManager × EvalOutcome :=
  match pm.threshold_mw with
  | none => (pm, EvalOutcome.skipThresholdOrAdjusting)
  | some thr =>
    if pm.adjusting then (pm, EvalOutcome.skipThresholdOrAdjusting)
    else
      let since := now - pm.last_adjustment
      let forced := pm.force_evaluate
      if ¬forced ∧ since < COOLDOWN then (pm, EvalOutcome.skipCooldown)
      else
        let pm1 := { pm with force_evaluate := false }
        let responsive := pm1.nodes.filter fun p => p.2.responsive
        if responsive.isEmpty then (pm1, EvalOutcome.skipNoResponsive)
        else
          let budget := thr - HEADROOM_MW
          if budget ≤ 0 then (pm1, EvalOutcome.skipBudget)
          else
            let total_power := (responsive.map fun p => p.2.power).sum
            if ¬forced then
              let deadband := budget * (5 / 100)
              if |total_power - budget| < deadband then (pm1, EvalOutcome.skipDeadband)
              else
                let all_at_ceiling := responsive.all fun p =>
                  decide (p.2.target_duty > 0 ∧ p.2.commanded_duty ≥ p.2.target_duty)
                let all_in_sync := responsive.all fun p =>
                  decide (p.2.commanded_duty > 0 → |p.2.duty - p.2.commanded_duty| ≤ 2)
                if all_at_ceiling ∧ all_in_sync ∧ total_power ≤ budget then
                  (pm1, EvalOutcome.skipCeiling)
                else (pm1, EvalOutcome.proceed false budget)
            else
              let nodes2 := pm1.nodes.map fun p =>
                if p.2.responsive ∧ p.2.duty > 0 then
                  (p.1, { p.2 with commanded_duty := p.2.duty })
                else p
              ({ pm1 with nodes := nodes2 }, EvalOutcome.proceed true budget)

/-! ## Concrete states used by the theorems below -/

/-- Scenario S4 priority node: `{1: duty=20, power=400, target=20}`. -/
def s4n1 : NodeState := { node_id := "1", duty := 20, target_duty := 20, power := 400 }

/-- Scenario S4 non-priority node: `{2: duty=50, power=1250, target=100}`. -/
def s4n2 : NodeState := { node_id := "2", duty := 50, target_duty := 100, power := 1250 }

/-- Scenario S4 responsive map. -/
def s4nodes : List (String × NodeState) := [("1", s4n1), ("2", s4n2)]

/-! ## Claim theorems -/

/-- C2, counterexample.  The claim's three frames — with a `+` prefix on the
first only — emit no `SensorReading` at all: the second frame lacks the `+`
continuation marker, so the handler treats it as terminal, and the
reassembled prefix fails `SENSOR_RE` (the payload stops at `P:15`, before
`mW`); the third frame is then classified alone as a raw line. -/
theorem c2_counterexample :
    ((runFrames ["+NODE2:DATA:D:50%,V:12.".toList,
                 "345V,I:1234.5mA,P:15".toList,
                 "234.5mW".toList]).2.filter isSensorEvent) = [] := by
  decide

attribute [local semireducible] Rat.add Rat.mul Rat.inv Rat.sub Rat.ofScientific in
/-- C2 (amended): with the continuation `+` also on the second frame — as
the chunking protocol of dc_gateway.py:140-150 requires — the three frames
emit exactly one `SensorReading` with `node_id="2"`, `duty=50`, `v=12.345`,
`i=1234.5`, `p=15234.5`, and leave the reassembly buffer empty. -/
theorem c2_amended :
    runFrames ["+NODE2:DATA:D:50%,V:12.".toList,
               "+345V,I:1234.5mA,P:15".toList,
               "234.5mW".toList] =
      ([], [GwEvent.sensorReading "2" 50 (12.345 : ℚ) (1234.5 : ℚ) (15234.5 : ℚ)]) := by
  decide

/-- C4, counterexample.  A single-chunk frame carrying a trailing newline is
not emitted byte-for-byte: `notification_handler` strips the frame
(dc_gateway.py:140), so `"A\n"` is emitted as `"A"`. -/
theorem c4_counterexample :
    (processFrameChars [] "A\n".toList).2 = some "A".toList ∧
      "A".toList ≠ "A\n".toList := by
  decide

/-- C4 (amended): for a frame with no surrounding whitespace (so that the
`.strip()` at dc_gateway.py:140 is the identity on it) that does not begin
with `'+'`, arriving on an empty reassembly buffer, the parser emits exactly
the delivered frame. -/
theorem c4_amended : ∀ frame : List Char,
    trimChars frame = frame → startsWithPlus frame = false →
    processFrameChars [] frame = ([], some frame) := by
  intro f ht hp
  simp [processFrameChars, ht, hp]

/-- Witness for C4 (amended) at the frame `"NODE2:DATA:D:50%"`. -/
theorem c4_witness :
    processFrameChars [] "NODE2:DATA:D:50%".toList =
      ([], some "NODE2:DATA:D:50%".toList) :=
  c4_amended _ (by decide) (by decide)

/-- C3: `set_threshold` snapshots `target_duty ← duty` (for nodes with
`duty > 0`) only on the first enable; invoked while the power manager is
already active (`threshold_mw` set) it leaves the node map — in particular
every `target_duty` — untouched. -/
theorem c3_no_resnapshot : ∀ (pm : PowerManager) (mw : ℚ),
    (pm.threshold_mw.isSome = true → (setThreshold pm mw).nodes = pm.nodes) ∧
    (pm.threshold_mw = none → (setThreshold pm mw).nodes =
      pm.nodes.map fun p =>
        if p.2.duty > 0 then (p.1, { p.2 with target_duty := p.2.duty }) else p) := by
  intro pm mw
  cases hth : pm.threshold_mw <;> simp [setThreshold, hth]

/-- A power manager already active at threshold 2000 mW, with one node whose
operator ceiling is 60 % while the sensor currently reports 40 %. -/
def pmC3 : PowerManager :=
  { nodes := [("3", { node_id := "3", duty := 40, target_duty := 60 })],
    threshold_mw := some 2000 }

/-- Witness for C3: re-invoking `set_threshold` on the active `pmC3` changes
no node state (so node 3's `target_duty` stays 60). -/
theorem c3_witness : (setThreshold pmC3 3000).nodes = pmC3.nodes :=
  (c3_no_resnapshot pmC3 3000).1 rfl

/-- Every entry of the fallback `estimates` list is strictly positive. -/
theorem mwEstimates_pos (all_nodes : List (String × NodeState)) :
    ∀ x ∈ mwEstimates all_nodes, 0 < x := by
  intro x hx
  simp only [mwEstimates, List.mem_filterMap] at hx
  obtain ⟨p, _, hfx⟩ := hx
  split_ifs at hfx with hc hd hd <;>
    (injection hfx with h
     subst h
     exact div_pos hd.2 (by exact_mod_cast hd.1))

/-- Positivity of the mw-per-percent estimate: every branch of
`_estimate_mw_per_pct` yields a strictly positive rational. -/
theorem estimateMwPerPct_pos (ns : NodeState) (all_nodes : List (String × NodeState)) :
    0 < estimateMwPerPct ns all_nodes := by
  simp only [estimateMwPerPct]
  by_cases h1 : 0 < (if ns.commanded_duty > 0 then ns.commanded_duty else ns.duty) ∧
      0 < ns.power
  · rw [if_pos h1]
    exact div_pos h1.2 (by exact_mod_cast h1.1)
  · rw [if_neg h1]
    by_cases h2 : (mwEstimates all_nodes).isEmpty = true
    · rw [if_pos h2]
      norm_num
    · rw [if_neg h2]
      have hne : mwEstimates all_nodes ≠ [] := by
        intro h
        exact h2 (by simp [h])
      exact div_pos (List.sum_pos _ (mwEstimates_pos all_nodes) hne)
        (by exact_mod_cast List.length_pos.mpr hne)

/-- C10: for every node state and node map, `_estimate_mw_per_pct` returns a
strictly positive value, so `share_mw / mw_per_pct` in `_nudge_node` never
divides by zero. -/
theorem c10_estimate_positive :
    ∀ (ns : NodeState) (all_nodes : List (String × NodeState)),
      0 < estimateMwPerPct ns all_nodes ∧ estimateMwPerPct ns all_nodes ≠ 0 :=
  fun ns all_nodes =>
    ⟨estimateMwPerPct_pos ns all_nodes, ne_of_gt (estimateMwPerPct_pos ns all_nodes)⟩

/-- An active power manager (threshold 1000 mW) with a pending forced
evaluation and an empty node map. -/
def pmC5 : PowerManager := { threshold_mw := some 1000, force_evaluate := true }

attribute [local semireducible] Rat.add Rat.mul Rat.inv Rat.sub Rat.ofScientific in
/-- C5, counterexample.  On `pmC5` the evaluation skips for lack of
responsive nodes, yet `force_evaluate` comes out `false`: the source clears
the flag (power_manager.py:352) right after the cooldown gate, before the
responsive-nodes and budget gates, so a skip at those gates does not leave
the flag set as the claim states. -/
theorem c5_counterexample :
    (evalPhase pmC5 0).2 = EvalOutcome.skipNoResponsive ∧
      (evalPhase pmC5 0).1.force_evaluate = false := by
  decide

/-- C5 (amended): `_evaluate_and_adjust` checks its skip conditions in
order — threshold unset or adjusting, then cooldown unless forced, then no
responsive nodes, then budget ≤ 0 — but consumes `force_evaluate` (sets it
to false) as soon as the first two gates have passed, *before* the
responsive-nodes and budget checks; in particular a skip due to no
responsive nodes or non-positive budget also clears `force_evaluate`. -/
theorem c5_amended : ∀ (pm : PowerManager) (now : ℚ),
    (pm.threshold_mw = none →
      evalPhase pm now = (pm, EvalOutcome.skipThresholdOrAdjusting)) ∧
    (pm.adjusting = true →
      evalPhase pm now = (pm, EvalOutcome.skipThresholdOrAdjusting)) ∧
    (pm.threshold_mw.isSome = true → pm.adjusting = false →
      pm.force_evaluate = false → now - pm.last_adjustment < COOLDOWN →
      evalPhase pm now = (pm, EvalOutcome.skipCooldown)) ∧
    (pm.threshold_mw.isSome = true → pm.adjusting = false →
      (pm.force_evaluate = true ∨ COOLDOWN ≤ now - pm.last_adjustment) →
      (evalPhase pm now).1.force_evaluate = false) ∧
    (pm.threshold_mw.isSome = true → pm.adjusting = false →
      (pm.force_evaluate = true ∨ COOLDOWN ≤ now - pm.last_adjustment) →
      (pm.nodes.filter fun p => p.2.responsive).isEmpty = true →
      evalPhase pm now =
        ({ pm with force_evaluate := false }, EvalOutcome.skipNoResponsive)) ∧
    (∀ thr : ℚ, pm.threshold_mw = some thr → pm.adjusting = false →
      (pm.force_evaluate = true ∨ COOLDOWN ≤ now - pm.last_adjustment) →
      (pm.nodes.filter fun p => p.2.responsive).isEmpty = false →
      thr - HEADROOM_MW ≤ 0 →
      evalPhase pm now =
        ({ pm with force_evaluate := false }, EvalOutcome.skipBudget)) := by
  intro pm now
  have hcool : ∀ (h : pm.force_evaluate = true ∨ COOLDOWN ≤ now - pm.last_adjustment),
      ¬(¬pm.force_evaluate = true ∧ now - pm.last_adjustment < COOLDOWN) := by
    rintro (h | h) ⟨h1, h2⟩
    · exact h1 h
    · exact absurd h2 (not_lt.mpr h)
  refine ⟨?_, ?_, ?_, ?_, ?_, ?_⟩
  · intro h
    simp [evalPhase, h]
  · intro h
    cases hth : pm.threshold_mw <;> simp [evalPhase, hth, h]
  · intro h1 h2 h3 h4
    obtain ⟨thr, hth⟩ := Option.isSome_iff_exists.mp h1
    simp [evalPhase, hth, h2, h3, h4]
  · intro h1 h2 h3
    obtain ⟨thr, hth⟩ := Option.isSome_iff_exists.mp h1
    simp only [evalPhase, hth, h2, if_false, Bool.false_eq_true]
    rw [if_neg (hcool h3)]
    split_ifs <;> rfl
  · intro h1 h2 h3 h4
    obtain ⟨thr, hth⟩ := Option.isSome_iff_exists.mp h1
    simp only [evalPhase, hth, h2, if_false, Bool.false_eq_true]
    rw [if_neg (hcool h3)]
    simp [h4]
  · intro thr hth h2 h3 h4 h5
    simp only [evalPhase, hth, h2, if_false, Bool.false_eq_true]
    rw [if_neg (hcool h3)]
    simp only [h4, Bool.false_eq_true, if_false]
    rw [if_pos h5]

/-- Witness for C5 (amended): the no-responsive-nodes skip applied to
`pmC5` at time 0. -/
theorem c5_witness :
    evalPhase pmC5 0 =
      ({ pmC5 with force_evaluate := false }, EvalOutcome.skipNoResponsive) :=
  (c5_amended pmC5 0).2.2.2.2.1 rfl rfl (Or.inl rfl) rfl

attribute [local semireducible] Rat.add Rat.mul Rat.inv Rat.sub Rat.ofScientific in
/-- C6: in priority mode, when the priority node's maximum power
(`priMaxPower` = target-duty ceiling × mw-per-pct estimate) is below its
weighted share `budget·PRIORITY_WEIGHT/total_shares` and non-priority
responsive nodes exist, the priority share is capped at that maximum and
the remainder `budget − capped_share` is divided equally among the
non-priority nodes (so the whole budget is always allocated); and on the S4
setup (threshold 3000 mW ⇒ budget 2500, priority node 1 with duty 20,
power 400, target 20; node 2 with duty 50, power 1250, target 100) exactly
one wire command `2:DUTY:84` is issued and none for node 1. -/
theorem c6_priority_redistribution :
    (∀ (pri : String) (nodes : List (String × NodeState)) (budget : ℚ),
      (nodes.filter fun p => p.1 ≠ pri) ≠ [] →
      priMaxPower pri nodes <
        budget * (PRIORITY_WEIGHT /
          (PRIORITY_WEIGHT + ((nodes.filter fun p => p.1 ≠ pri).length : ℚ))) →
      prioritySharesOf pri nodes budget =
        (priMaxPower pri nodes,
         (budget - priMaxPower pri nodes) /
           ((nodes.filter fun p => p.1 ≠ pri).length : ℚ))) ∧
    (∀ (pri : String) (nodes : List (String × NodeState)) (budget : ℚ),
      (nodes.filter fun p => p.1 ≠ pri) ≠ [] →
      (prioritySharesOf pri nodes budget).1 +
        ((nodes.filter fun p => p.1 ≠ pri).length : ℚ) *
          (prioritySharesOf pri nodes budget).2 = budget) ∧
    prioritySharesOf "1" s4nodes 2500 = (400, 2100) ∧
    (balanceWithPriority "1" s4nodes 2500 (fun _ => true)).2 =
      [GatewayAction.sendCmd "2:DUTY:84", GatewayAction.waitResp "2"] := by
  refine ⟨?_, ?_, by decide, by decide⟩
  · intro pri nodes budget hne hlt
    have hne' : ¬((nodes.filter fun p => p.1 ≠ pri).isEmpty = true) :=
      fun h => hne (List.isEmpty_iff.mp h)
    simp only [prioritySharesOf]
    rw [if_pos ⟨hlt, hne'⟩, if_pos hne']
  · intro pri nodes budget hne
    have hne' : ¬((nodes.filter fun p => p.1 ≠ pri).isEmpty = true) :=
      fun h => hne (List.isEmpty_iff.mp h)
    have hlen : ((nodes.filter fun p => p.1 ≠ pri).length : ℚ) ≠ 0 :=
      Nat.cast_ne_zero.mpr fun h => hne (List.length_eq_zero.mp h)
    simp only [prioritySharesOf]
    rw [if_pos hne']
    split_ifs with h1 <;>
      (generalize hgen : ((nodes.filter fun p => p.1 ≠ pri).length : ℚ) = n at hlen ⊢
       field_simp)

/-- Witness for C6: on the S4 inputs the (capped) priority share plus the
redistributed non-priority shares exhaust the 2500 mW budget. -/
theorem c6_witness :
    (prioritySharesOf "1" s4nodes 2500).1 +
      ((s4nodes.filter fun p => p.1 ≠ "1").length : ℚ) *
        (prioritySharesOf "1" s4nodes 2500).2 = 2500 :=
  c6_priority_redistribution.2.1 "1" s4nodes 2500 (by decide)

/-- C7: for every nudge of a node, if the duty command is confirmed
(`_wait_node_response` returns true) then `commanded_duty` is updated to the
duty that was sent, and if it is not confirmed then the node state — in
particular `commanded_duty` — is left exactly as it was; when no command is
needed the node state is also untouched and nothing is sent. -/
theorem c7_nudge_confirmation : ∀ (nid : String) (ns : NodeState) (share : ℚ)
    (all_nodes : List (String × NodeState)) (confirmed : Bool),
    ((nudgeNode nid ns share all_nodes confirmed).1 = none →
      (nudgeNode nid ns share all_nodes confirmed).2.1 = ns ∧
      (nudgeNode nid ns share all_nodes confirmed).2.2 = []) ∧
    ((nudgeNode nid ns share all_nodes confirmed).1.isSome = true →
      ∃ d : ℤ,
        (nudgeNode nid ns share all_nodes confirmed).2.2 =
          [GatewayAction.sendCmd (dutyWire nid d), GatewayAction.waitResp nid] ∧
        (confirmed = true →
          (nudgeNode nid ns share all_nodes confirmed).2.1 =
            { ns with commanded_duty := d }) ∧
        (confirmed = false →
          (nudgeNode nid ns share all_nodes confirmed).2.1 = ns)) := by
  intro nid ns share all_nodes confirmed
  simp only [nudgeNode]
  split_ifs with h1 h2 h3
  · exact ⟨fun _ => ⟨rfl, rfl⟩, by simp⟩
  · exact ⟨fun _ => ⟨rfl, rfl⟩, by simp⟩
  · refine ⟨by simp, fun _ => ⟨_, rfl, fun _ => rfl, fun hc => ?_⟩⟩
    rw [hc] at h3
    cases h3
  · refine ⟨by simp, fun _ => ⟨_, rfl, fun hc => ?_, fun _ => rfl⟩⟩
    rw [hc] at h3
    exact absurd rfl h3

attribute [local semireducible] Rat.add Rat.mul Rat.inv Rat.sub Rat.ofScientific in
/-- Witness for C7 at the S4 nudge of node 2 (share 2100 mW, confirmed):
the sent duty becomes the new `commanded_duty`. -/
theorem c7_witness :
    ∃ d : ℤ,
      (nudgeNode "2" s4n2 2100 s4nodes true).2.2 =
        [GatewayAction.sendCmd (dutyWire "2" d), GatewayAction.waitResp "2"] ∧
      (true = true →
        (nudgeNode "2" s4n2 2100 s4nodes true).2.1 =
          { s4n2 with commanded_duty := d }) ∧
      (true = false → (nudgeNode "2" s4n2 2100 s4nodes true).2.1 = s4n2) :=
  (c7_nudge_confirmation "2" s4n2 2100 s4nodes true).2 (by decide)

/-- After the restore loop, every node's `commanded_duty` is 0. -/
theorem restoreNodes_commanded :
    ∀ (l : List (String × NodeState)), ∀ p ∈ (restoreNodes l).1,
      p.2.commanded_duty = 0 := by
  intro l
  induction l with
  | nil => simp [restoreNodes]
  | cons q rest ih =>
    obtain ⟨nid, ns⟩ := q
    intro p hp
    simp only [restoreNodes, List.mem_cons] at hp
    rcases hp with h | h
    · rw [h]
    · exact ih p h

/-- The restore loop issues a `set_duty(node, target_duty)` followed by a
response wait for exactly the nodes with `commanded_duty ≠ target_duty` and
`target_duty > 0`, in map order. -/
theorem restoreNodes_acts :
    ∀ (l : List (String × NodeState)),
      (restoreNodes l).2 = l.flatMap fun p =>
        if p.2.commanded_duty ≠ p.2.target_duty ∧ p.2.target_duty > 0 then
          [GatewayAction.sendCmd (dutyWire p.1 p.2.target_duty),
           GatewayAction.waitResp p.1]
        else [] := by
  intro l
  induction l with
  | nil => simp [restoreNodes]
  | cons q rest ih =>
    obtain ⟨nid, ns⟩ := q
    simp only [restoreNodes, List.flatMap_cons, ih]

/-- The restore loop keeps the node map's keys unchanged. -/
theorem restoreNodes_keys :
    ∀ (l : List (String × NodeState)),
      (restoreNodes l).1.map Prod.fst = l.map Prod.fst := by
  intro l
  induction l with
  | nil => rfl
  | cons q rest ih =>
    obtain ⟨nid, ns⟩ := q
    simp only [restoreNodes, List.map_cons, ih]

/-- C8: `disable()` clears `threshold_mw` and the polling flag, waits 2 s,
then issues a restore command `set_duty(node, target_duty)` followed by a
`wait_node_response` for exactly the nodes where
`commanded_duty ≠ target_duty` and `target_duty > 0` (in map order), and
afterwards every node's `commanded_duty` equals 0. -/
theorem c8_disable : ∀ (pm : PowerManager),
    (disable pm).1.threshold_mw = none ∧
    (disable pm).1.polling = false ∧
    (∀ p ∈ (disable pm).1.nodes, p.2.commanded_duty = 0) ∧
    (disable pm).2 = GatewayAction.sleep 2 ::
      (pm.nodes.flatMap fun p =>
        if p.2.commanded_duty ≠ p.2.target_duty ∧ p.2.target_duty > 0 then
          [GatewayAction.sendCmd (dutyWire p.1 p.2.target_duty),
           GatewayAction.waitResp p.1]
        else []) := by
  intro pm
  refine ⟨rfl, rfl, ?_, ?_⟩
  · exact restoreNodes_commanded pm.nodes
  · simp only [disable]
    rw [restoreNodes_acts]

/-- Scenario S5 state: power manager active, node 3 at
`target_duty=80, commanded_duty=45`. -/
def pmC8 : PowerManager :=
  { nodes := [("3", { node_id := "3", duty := 45, target_duty := 80,
                      commanded_duty := 45 })],
    threshold_mw := some 3000 }

/-- Witness for C8 on `pmC8`: the trace is the 2 s drain followed by
`3:DUTY:80` and its response wait. -/
theorem c8_witness :
    (disable pmC8).2 =
      [GatewayAction.sleep 2, GatewayAction.sendCmd "3:DUTY:80",
       GatewayAction.waitResp "3"] :=
  ((c8_disable pmC8).2.2.2).trans (by decide)

/-- A map whose function preserves first components preserves the key list. -/
theorem keys_map_fst (l : List (String × NodeState))
    (g : String × NodeState → String × NodeState) (h : ∀ p, (g p).1 = p.1) :
    (l.map g).map Prod.fst = l.map Prod.fst := by
  simp only [List.map_map]
  exact List.map_congr_left fun p _ => h p

/-- `updateNode` preserves the key list. -/
theorem keys_updateNode (l : List (String × NodeState)) (nid : String)
    (f : NodeState → NodeState) :
    (updateNode l nid f).map Prod.fst = l.map Prod.fst :=
  keys_map_fst l _ fun p => by by_cases h : p.1 = nid <;> simp [h]

/-- A present key is in the key list. -/
theorem mem_of_lookupNode_ne_none {l : List (String × NodeState)} {nid : String}
    (h : ¬(lookupNode l nid).isNone = true) : nid ∈ l.map Prod.fst := by
  rcases hf : l.find? (fun p => p.1 = nid) with _ | q
  · simp [lookupNode, hf] at h
  · have hq : q.1 = nid := by simpa using List.find?_some hf
    exact List.mem_map.mpr ⟨q, List.mem_of_find?_eq_some hf, hq⟩

/-- The node map after `_evaluate_and_adjust`'s guard phase is either
untouched or the forced resynchronization map. -/
theorem evalPhase_nodes (pm : PowerManager) (now : ℚ) :
    (evalPhase pm now).1.nodes = pm.nodes ∨
    (evalPhase pm now).1.nodes = pm.nodes.map fun p =>
      if p.2.responsive ∧ p.2.duty > 0 then
        (p.1, { p.2 with commanded_duty := p.2.duty })
      else p := by
  rcases hth : pm.threshold_mw with _ | thr <;>
    simp only [evalPhase, hth] <;>
    first
      | exact Or.inl trivial
      | (split_ifs <;>
          first
            | (left; rfl)
            | (right; rfl))

/-- A nudge round preserves the key list of the node map it threads. -/
theorem nudgeRound_keys (share : ℚ) (confirm : String → Bool) :
    ∀ (order : List String) (start : List (String × NodeState) × List GatewayAction),
      (nudgeRound share confirm order start).1.map Prod.fst =
        start.1.map Prod.fst := by
  intro order
  induction order with
  | nil => intro start; rfl
  | cons nid rest ih =>
    intro start
    simp only [nudgeRound]
    cases h : lookupNode start.1 nid with
    | none => exact ih start
    | some ns =>
      rw [ih _]
      dsimp only
      exact keys_updateNode start.1 nid _

/-- C9, counterexample.  Starting from an empty node map, `set_target_duty`
(reached from an operator `set_duty` while the power manager exists) creates
the node entry although no sensor reading from it was ever parsed — so a
node does *not* enter the map only via its first parseable sensor reading. -/
theorem c9_counterexample :
    (PowerManager.nodes {}) = ([] : List (String × NodeState)) ∧
    (setTargetDuty {} "5" 50 0).nodes.map Prod.fst = ["5"] := by
  decide

/-- C9 (amended): a node enters the power manager's map either when it first
responds with a parseable sensor reading (`on_sensor_data`) or when the
operator sets its duty (`set_target_duty`); once present, a node is never
removed from the map by any power-manager operation — `set_threshold`,
`disable`, `set_priority`, `clear_priority`, `set_target_duty`,
`on_sensor_data`, `_mark_stale_nodes` (which only clears `responsive`), the
evaluation guard phase, and both balancers all preserve membership. -/
theorem c9_amended : ∀ (nid : String),
    (∀ (pm : PowerManager) (mw : ℚ), nid ∈ pm.nodes.map Prod.fst →
      nid ∈ (setThreshold pm mw).nodes.map Prod.fst) ∧
    (∀ (pm : PowerManager), nid ∈ pm.nodes.map Prod.fst →
      nid ∈ (disable pm).1.nodes.map Prod.fst) ∧
    (∀ (pm : PowerManager) (pid : String), nid ∈ pm.nodes.map Prod.fst →
      nid ∈ (setPriority pm pid).nodes.map Prod.fst) ∧
    (∀ (pm : PowerManager), nid ∈ pm.nodes.map Prod.fst →
      nid ∈ (clearPriority pm).nodes.map Prod.fst) ∧
    (∀ (pm : PowerManager) (nid2 : String) (d : ℤ) (now : ℚ),
      nid ∈ pm.nodes.map Prod.fst →
      nid ∈ (setTargetDuty pm nid2 d now).nodes.map Prod.fst) ∧
    (∀ (pm : PowerManager) (nid2 : String) (d : ℤ) (v c pw now : ℚ),
      nid ∈ pm.nodes.map Prod.fst →
      nid ∈ (onSensorData pm nid2 d v c pw now).nodes.map Prod.fst) ∧
    (∀ (pm : PowerManager) (now : ℚ), nid ∈ pm.nodes.map Prod.fst →
      nid ∈ (markStaleNodes pm now).nodes.map Prod.fst) ∧
    (∀ (pm : PowerManager) (now : ℚ), nid ∈ pm.nodes.map Prod.fst →
      nid ∈ (evalPhase pm now).1.nodes.map Prod.fst) ∧
    (∀ (nodes : List (String × NodeState)) (budget : ℚ) (confirm : String → Bool),
      nid ∈ nodes.map Prod.fst →
      nid ∈ (balanceProportional nodes budget confirm).1.map Prod.fst) ∧
    (∀ (pri : String) (nodes : List (String × NodeState)) (budget : ℚ)
      (confirm : String → Bool), nid ∈ nodes.map Prod.fst →
      nid ∈ (balanceWithPriority pri nodes budget confirm).1.map Prod.fst) ∧
    (∀ (pm : PowerManager) (d : ℤ) (now : ℚ),
      nid ∈ (setTargetDuty pm nid d now).nodes.map Prod.fst) ∧
    (∀ (pm : PowerManager) (d : ℤ) (v c pw now : ℚ),
      nid ∈ (onSensorData pm nid d v c pw now).nodes.map Prod.fst) := by
  intro nid
  have hgrow : ∀ (pm : PowerManager) (nid2 : String) (now : ℚ),
      nid ∈ pm.nodes.map Prod.fst →
      nid ∈ (if (lookupNode pm.nodes nid2).isNone then
               pm.nodes ++ [(nid2, NodeState.mkNew nid2 now)]
             else pm.nodes).map Prod.fst := by
    intro pm nid2 now h
    split_ifs <;> simp_all
  have hself : ∀ (pm : PowerManager) (nid2 : String) (now : ℚ),
      nid2 ∈ (if (lookupNode pm.nodes nid2).isNone then
               pm.nodes ++ [(nid2, NodeState.mkNew nid2 now)]
             else pm.nodes).map Prod.fst := by
    intro pm nid2 now
    split_ifs with h
    · simp
    · exact mem_of_lookupNode_ne_none (by simpa using h)
  refine ⟨?_, ?_, ?_, ?_, ?_, ?_, ?_, ?_, ?_, ?_, ?_, ?_⟩
  · intro pm mw h
    simp only [setThreshold]
    split_ifs with hfe
    · rw [keys_map_fst _ _ fun p => by by_cases hd : p.2.duty > 0 <;> simp [hd]]
      exact h
    · exact h
  · intro pm h
    simpa [disable, restoreNodes_keys] using h
  · intro pm pid h
    simpa [setPriority] using h
  · intro pm h
    simpa [clearPriority] using h
  · intro pm nid2 d now h
    simp only [setTargetDuty]
    rw [keys_updateNode]
    exact hgrow pm nid2 now h
  · intro pm nid2 d v c pw now h
    simp only [onSensorData]
    rw [keys_updateNode]
    exact hgrow pm nid2 now h
  · intro pm now h
    simp only [markStaleNodes]
    rw [keys_map_fst _ _ fun p => by split_ifs <;> rfl]
    exact h
  · intro pm now h
    rcases evalPhase_nodes pm now with he | he
    · rw [he]; exact h
    · rw [he, keys_map_fst _ _ fun p => by split_ifs <;> rfl]
      exact h
  · intro nodes budget confirm h
    simpa [balanceProportional, nudgeRound_keys] using h
  · intro pri nodes budget confirm h
    simp only [balanceWithPriority]
    cases hl : lookupNode nodes pri with
    | none => rw [nudgeRound_keys]; exact h
    | some ns => rw [nudgeRound_keys, keys_updateNode]; exact h
  · intro pm d now
    simp only [setTargetDuty]
    rw [keys_updateNode]
    exact hself pm nid now
  · intro pm d v c pw now
    simp only [onSensorData]
    rw [keys_updateNode]
    exact hself pm nid now

/-- Witness for C9 (amended): node 3 of `pmC8` survives an operator
`set_target_duty` aimed at a different node. -/
theorem c9_witness :
    "3" ∈ (setTargetDuty pmC8 "9" 10 0).nodes.map Prod.fst :=
  (c9_amended "3").2.2.2.2.1 pmC8 "9" 10 0 (by decide)

/-- Python `round` of a non-negative rational is non-negative. -/
theorem pyRound_nonneg {q : ℚ} (h : 0 ≤ q) : 0 ≤ pyRound q := by
  have hf : (0 : ℤ) ≤ ⌊q⌋ := Int.floor_nonneg.mpr h
  simp only [pyRound]
  split_ifs <;> omega

/-- Python `round` never overshoots an integer upper bound. -/
theorem pyRound_le {q : ℚ} {t : ℤ} (h : q ≤ (t : ℚ)) : pyRound q ≤ t := by
  have hf : ⌊q⌋ ≤ t := by
    rw [show t = ⌊(t : ℚ)⌋ from (Int.floor_intCast t).symm]
    exact Int.floor_le_floor h
  have hlt : 1/2 ≤ q - ⌊q⌋ → ⌊q⌋ < t := by
    intro hge
    by_contra hc
    push_neg at hc
    have het : ((⌊q⌋ : ℤ) : ℚ) = (t : ℚ) := by
      exact_mod_cast congrArg (fun z : ℤ => (z : ℚ)) (le_antisymm hf hc)
    have hfl : (⌊q⌋ : ℚ) ≤ q := Int.floor_le q
    linarith
  simp only [pyRound]
  split_ifs with h1 h2 h3
  · exact hf
  · exact Int.add_one_le_iff.mpr (hlt (not_lt.mp h1))
  · exact hf
  · exact Int.add_one_le_iff.mpr (hlt (not_lt.mp h1))

/-- The claimed per-node invariant: `0 ≤ commanded_duty ≤ target_duty ≤ 100`. -/
abbrev NodeInv (ns : NodeState) : Prop :=
  0 ≤ ns.commanded_duty ∧ ns.commanded_duty ≤ ns.target_duty ∧
    ns.target_duty ≤ 100

/-- An active power manager whose node reports sensor duty 50 % while its
operator ceiling is 20 % (reachable e.g. after a raw `1:DUTY:50` wire
command, which bypasses `set_target_duty`). -/
def pmC1 : PowerManager :=
  { nodes := [("1", { node_id := "1", duty := 50, target_duty := 20,
                      commanded_duty := 20, power := 1000 })],
    threshold_mw := some 3000, force_evaluate := true }

attribute [local semireducible] Rat.add Rat.mul Rat.inv Rat.sub Rat.ofScientific in
/-- C1, counterexample.  The forced resynchronization of
`_evaluate_and_adjust` (power_manager.py:414-423) sets
`commanded_duty ← duty` without consulting `target_duty`: on `pmC1` it
produces `commanded_duty = 50 > 20 = target_duty`, violating the claimed
invariant `commanded_duty ≤ target_duty`. -/
theorem c1_counterexample :
    (lookupNode (evalPhase pmC1 100).1.nodes "1").map
        (fun ns => (ns.commanded_duty, ns.target_duty)) = some (50, 20) ∧
      ¬((50 : ℤ) ≤ 20) := by
  decide

/-- C1 (amended): the invariant `0 ≤ commanded_duty ≤ target_duty ≤ 100`
is preserved by the operations that write `commanded_duty` *provided* the
sensor duty respects the ceiling: (a) the forced resynchronization in
`_evaluate_and_adjust` preserves it when every node has
`0 ≤ duty ≤ target_duty`; (b) the confirmed update in `_nudge_node`
preserves it for nodes with `target_duty > 0` (a node with `target_duty = 0`
may be nudged up to 100, above its target); (c) `set_target_duty` preserves
it for duties in `[0, 100]` (as delivered by the clamping `set_duty`
caller).  Without those provisos the invariant fails (see the
counterexample). -/
theorem c1_amended :
    (∀ (pm : PowerManager) (now : ℚ),
      (∀ p ∈ pm.nodes, NodeInv p.2 ∧ 0 ≤ p.2.duty ∧ p.2.duty ≤ p.2.target_duty) →
      ∀ p ∈ (evalPhase pm now).1.nodes, NodeInv p.2) ∧
    (∀ (nid : String) (ns : NodeState) (share : ℚ)
      (all_nodes : List (String × NodeState)) (confirmed : Bool),
      NodeInv ns → 0 < ns.target_duty →
      NodeInv (nudgeNode nid ns share all_nodes confirmed).2.1) ∧
    (∀ (pm : PowerManager) (nid : String) (d : ℤ) (now : ℚ),
      0 ≤ d → d ≤ 100 → (∀ p ∈ pm.nodes, NodeInv p.2) →
      ∀ p ∈ (setTargetDuty pm nid d now).nodes, NodeInv p.2) := by
  refine ⟨?_, ?_, ?_⟩
  · intro pm now h p hp
    rcases evalPhase_nodes pm now with he | he
    · rw [he] at hp
      exact (h p hp).1
    · rw [he] at hp
      obtain ⟨q, hq, rfl⟩ := List.mem_map.mp hp
      by_cases hc : q.2.responsive = true ∧ q.2.duty > 0
      · rw [if_pos hc]
        obtain ⟨⟨_, _, h3⟩, h4, h5⟩ := h q hq
        exact ⟨h4, h5, h3⟩
      · rw [if_neg hc]
        exact (h q hq).1
  · intro nid ns share all_nodes confirmed hInv hpos
    simp only [nudgeNode]
    split_ifs with h1 h2 h3
    · exact hInv
    · exact hInv
    · have hnd : nudgeNewDuty ns share all_nodes ≤ ns.target_duty := by
        simp only [nudgeNewDuty]
        rw [if_pos hpos]
        exact pyRound_le (max_le (by exact_mod_cast hpos.le) (min_le_left _ _))
      refine ⟨le_max_left 0 _, ?_, hInv.2.2⟩
      exact max_le hpos.le (le_trans (min_le_right 100 _) hnd)
    · exact hInv
  · intro pm nid d now h0 h100 h p hp
    simp only [setTargetDuty, updateNode] at hp
    obtain ⟨q, hq, rfl⟩ := List.mem_map.mp hp
    by_cases he : q.1 = nid
    · rw [if_pos he]
      exact ⟨h0, le_refl d, h100⟩
    · rw [if_neg he]
      split_ifs at hq with hl
      · rcases List.mem_append.mp hq with hq' | hq'
        · exact h q hq'
        · simp only [List.mem_singleton] at hq'
          rw [hq'] at he
          exact absurd rfl he
      · exact h q hq

/-- Witness for C1 (amended): a confirmed nudge of the S4 node 2
(`target_duty = 100 > 0`, invariant holds beforehand) keeps
`0 ≤ commanded_duty ≤ target_duty ≤ 100`. -/
theorem c1_witness : NodeInv (nudgeNode "2" s4n2 2100 s4nodes true).2.1 :=
  c1_amended.2.1 "2" s4n2 2100 s4nodes true (by decide) (by decide)

end BLEMesh
